import Mathlib

/-!
Verification of the `go-oauth2-pg` PostgreSQL storage layer.

The client store (`client_store.go`) is embedded directly from the source.
The storage adapter and the JSON payload codec are external collaborators
(per the spec's scope section) and are therefore parameters of the embedded
operations; operations additionally return the list of adapter calls they
performed, so that call-pattern properties (exactly one insert, no call on
the serialization-failure path, ...) are expressible.

The token store source file is not part of the repository snapshot (only
its tests are), so token-store behaviour is modelled from the spec where a
claim needs it; those definitions say so in their doc comments.
-/

set_option autoImplicit false

namespace OAuth2PG

/-- Errors observable through the Go `error` interface in this code base:
the adapter's distinguished no-rows condition (`pgadapter.ErrNoRows`),
any other adapter-reported failure, and a JSON (de)serialization failure. -/
inductive GoError where
  | noRows
  | adapterErr (msg : String)
  | serializationErr (msg : String)
deriving DecidableEq, Repr

/-- The row shape of the client table, from `ClientStoreItem` in
`client_store.go` (`data []byte` is modelled as a `String` of bytes). -/
structure ClientStoreItem where
  id : String
  secret : String
  domain : String
  data : String
deriving DecidableEq, Repr

/-- One call made through the storage adapter capability:
`Exec(query, args...)` or `SelectOne(dst, query, args...)`. -/
inductive Call where
  | exec (query : String) (args : List String)
  | selectOne (query : String) (args : List String)
deriving DecidableEq, Repr

/-- The storage adapter capability (`pgadapter.Adapter`): `Exec` returns an
optional error, `SelectOne` either fills a `ClientStoreItem` destination or
returns an error. The adapter is external; concrete instances are supplied
per theorem. -/
structure Adapter where
  exec : String → List String → Option GoError
  selectOne : String → List String → Except GoError ClientStoreItem

/-- The `models.Client` domain record from `gopkg.in/oauth2.v3/models`:
four string fields ID, Secret, Domain, UserID. -/
structure Client where
  ID : String
  Secret : String
  Domain : String
  UserID : String
deriving DecidableEq, Repr

def Client.GetID (c : Client) : String := c.ID

def Client.GetSecret (c : Client) : String := c.Secret

def Client.GetDomain (c : Client) : String := c.Domain

def Client.GetUserID (c : Client) : String := c.UserID

/-- The external JSON codec (`jsoniter`): `marshal` may fail; `unmarshal`
fills a `models.Client` destination (possibly partially) and returns an
optional error, matching `jsoniter.Unmarshal(data, &cm)`. -/
structure Codec where
  marshal : Client → Except GoError String
  unmarshal : String → Client × Option GoError

/-- The configuration state of `ClientStore` (the adapter and logger fields
are passed separately / unused by the embedded operations). Defaults are
those set by `NewClientStore` before options are applied. -/
structure ClientStore where
  tableName : String := "oauth2_clients"
  initTableDisabled : Bool := false
deriving DecidableEq, Repr

/-- The table-creation statement issued by `ClientStore.initTable`:
`fmt.Sprintf` of the fixed schema template with the table name substituted
for both `%[1]s` occurrences. -/
def clientInitQuery (t : String) : String :=
  "\nCREATE TABLE IF NOT EXISTS " ++ t ++
    " (\n  id     TEXT  NOT NULL,\n  secret TEXT  NOT NULL,\n  domain TEXT  NOT NULL,\n  data   JSONB NOT NULL,\n  CONSTRAINT " ++
    t ++ "_pkey PRIMARY KEY (id)\n);\n"

/-- `ClientStore.initTable`: one `Exec` of the table-creation statement,
returning the adapter's result. -/
def ClientStore.initTable (s : ClientStore) (a : Adapter) :
    Option GoError × List Call :=
  (a.exec (clientInitQuery s.tableName) [],
   [Call.exec (clientInitQuery s.tableName) []])

/-- The store built by `NewClientStore` before init: the defaults with the
options applied in order (the option-application loop of the source). -/
def buildClientStore (options : List (ClientStore → ClientStore)) : ClientStore :=
  options.foldl (fun s o => o s) {}

/-- `NewClientStore`: builds the store with defaults, applies the options,
runs `initTable` unless disabled, and returns the store together with the
init error (the store is returned on both the error and success paths). -/
def NewClientStore (a : Adapter) (options : List (ClientStore → ClientStore)) :
    (ClientStore × Option GoError) × List Call :=
  if (buildClientStore options).initTableDisabled then
    ((buildClientStore options, none), [])
  else
    ((buildClientStore options, ((buildClientStore options).initTable a).1),
     ((buildClientStore options).initTable a).2)

/-- Modelled from the spec: the client-store construction option that
overrides the table name (the options source file is not under `src/`;
the spec lists a table-name override option). -/
def WithClientStoreTableName (n : String) : ClientStore → ClientStore :=
  fun s => { s with tableName := n }

/-- Modelled from the spec: the client-store construction option that
disables automatic table creation (the options source file is not under
`src/`; the spec lists a disable-table-creation option). -/
def WithClientStoreInitTableDisabled : ClientStore → ClientStore :=
  fun s => { s with initTableDisabled := true }

/-- `ClientStore.toClientInfo`: unmarshals the `data` payload into a
`models.Client` and returns the (always non-nil) record together with the
unmarshal error, matching `return &cm, err`. -/
def toClientInfo (codec : Codec) (data : String) : Client × Option GoError :=
  codec.unmarshal data

/-- The select statement built by `GetByID`. -/
def selectByIDQuery (t : String) : String :=
  "SELECT * FROM " ++ t ++ " WHERE id = $1"

/-- `ClientStore.GetByID`: empty id short-circuits to (nil, nil) with no
adapter call; otherwise one `SelectOne` by id, propagating its error
verbatim, then deserialization of the row's `data`. -/
def ClientStore.getByID (s : ClientStore) (codec : Codec) (a : Adapter)
    (id : String) : (Option Client × Option GoError) × List Call :=
  if id = "" then
    ((none, none), [])
  else
    match a.selectOne (selectByIDQuery s.tableName) [id] with
    | .error e => ((none, some e), [Call.selectOne (selectByIDQuery s.tableName) [id]])
    | .ok item =>
        let r := toClientInfo codec item.data
        ((some r.1, r.2), [Call.selectOne (selectByIDQuery s.tableName) [id]])

/-- The insert statement built by `Create`. -/
def insertClientQuery (t : String) : String :=
  "INSERT INTO " ++ t ++ " (id, secret, domain, data) VALUES ($1, $2, $3, $4)"

/-- `ClientStore.Create`: marshals the client; on failure returns the
serialization error with no adapter call, otherwise one `Exec` of the
insert carrying id, secret, domain and the serialized payload, whose
result is returned verbatim. -/
def ClientStore.create (s : ClientStore) (codec : Codec) (a : Adapter)
    (info : Client) : Option GoError × List Call :=
  match codec.marshal info with
  | .error e => (some e, [])
  | .ok data =>
      (a.exec (insertClientQuery s.tableName)
         [info.GetID, info.GetSecret, info.GetDomain, data],
       [Call.exec (insertClientQuery s.tableName)
         [info.GetID, info.GetSecret, info.GetDomain, data]])

/-!
A concrete, state-explicit database semantics for the client table, used to
state the create/get round trip: `dbExec`/`dbSelectOne` interpret the exact
statements built by the store over a list of rows, and `runCalls` replays a
call trace to obtain the post-state.
-/

/-- Interprets one `Exec` against the client table `t` with rows `st`:
the insert statement appends one row, rejecting a duplicate primary key;
anything else is an adapter failure. Returns (error, new state). -/
def dbExec (t : String) (st : List ClientStoreItem) (q : String)
    (args : List String) : Option GoError × List ClientStoreItem :=
  if q = insertClientQuery t then
    match args with
    | [id, secret, domain, data] =>
        if st.any (fun r => r.id == id) then
          (some (GoError.adapterErr "duplicate key value violates unique constraint"), st)
        else
          (none, st ++ [⟨id, secret, domain, data⟩])
    | _ => (some (GoError.adapterErr "malformed arguments"), st)
  else (some (GoError.adapterErr "unrecognized statement"), st)

/-- Interprets one `SelectOne` against the client table `t` with rows `st`:
the select-by-id statement returns the first matching row, or the
distinguished no-rows error when none matches. -/
def dbSelectOne (t : String) (st : List ClientStoreItem) (q : String)
    (args : List String) : Except GoError ClientStoreItem :=
  if q = selectByIDQuery t then
    match args with
    | [id] =>
        match st.find? (fun r => r.id == id) with
        | some r => .ok r
        | none => .error GoError.noRows
    | _ => .error (GoError.adapterErr "malformed arguments")
  else .error (GoError.adapterErr "unrecognized statement")

/-- The adapter backed by the client table `t` at state `st`. -/
def dbAdapter (t : String) (st : List ClientStoreItem) : Adapter where
  exec := fun q args => (dbExec t st q args).1
  selectOne := dbSelectOne t st

/-- State transition of one adapter call (`SelectOne` is read-only). -/
def applyCall (t : String) (st : List ClientStoreItem) :
    Call → List ClientStoreItem
  | .exec q args => (dbExec t st q args).2
  | .selectOne _ _ => st

/-- Replays a call trace against the client table to get the post-state. -/
def runCalls (t : String) (st : List ClientStoreItem) (calls : List Call) :
    List ClientStoreItem :=
  calls.foldl (applyCall t) st

/-!
Token store. `token_store.go` is not part of the repository snapshot (only
its tests in the test file are), so the token record, its four lookup
paths, create/remove and the GC pass are modelled from the spec.
-/

/-- Modelled from the spec: the token domain record (`models.Token` and
`token_store.go` are not under `src/`). One record may simultaneously hold
an authorization code, an access token and a refresh token, each with its
creation time and expiry window. -/
structure Token where
  code : String := ""
  codeCreatedAt : Nat := 0
  codeExpiresIn : Nat := 0
  access : String := ""
  accessCreatedAt : Nat := 0
  accessExpiresIn : Nat := 0
  refresh : String := ""
  refreshCreatedAt : Nat := 0
  refreshExpiresIn : Nat := 0
deriving DecidableEq, Repr

def Token.GetCode (t : Token) : String := t.code

def Token.GetAccess (t : Token) : String := t.access

def Token.GetRefresh (t : Token) : String := t.refresh

/-- Modelled from the spec: one row of the token table — the three lookup
key columns plus the serialized full payload, which deserializes back to
the domain record (`data` column; the external codec's round trip is taken
as the payload held directly). -/
structure TokenRow where
  code : String
  access : String
  refresh : String
  payload : Token
deriving DecidableEq, Repr

/-- Modelled from the spec: `Create(token)` inserts one fresh row with all
three sub-token columns populated (empty fields written as empty rather
than null) plus the payload; it never upserts. -/
def tokenCreate (st : List TokenRow) (t : Token) : List TokenRow :=
  st ++ [{ code := t.code, access := t.access, refresh := t.refresh, payload := t }]

/-- Modelled from the spec: `GetByCode(code)` — empty key short-circuits to
no result and no error; otherwise selects one row by the code column and
returns its deserialized payload, or the distinguished no-rows error. -/
def tokenGetByCode (st : List TokenRow) (code : String) :
    Option Token × Option GoError :=
  if code = "" then (none, none)
  else
    match st.find? (fun r => r.code == code) with
    | some r => (some r.payload, none)
    | none => (none, some GoError.noRows)

/-- Modelled from the spec: `GetByAccess(access)`, symmetric to
`tokenGetByCode`. -/
def tokenGetByAccess (st : List TokenRow) (access : String) :
    Option Token × Option GoError :=
  if access = "" then (none, none)
  else
    match st.find? (fun r => r.access == access) with
    | some r => (some r.payload, none)
    | none => (none, some GoError.noRows)

/-- Modelled from the spec: `GetByRefresh(refresh)`, symmetric to
`tokenGetByCode`. -/
def tokenGetByRefresh (st : List TokenRow) (refresh : String) :
    Option Token × Option GoError :=
  if refresh = "" then (none, none)
  else
    match st.find? (fun r => r.refresh == refresh) with
    | some r => (some r.payload, none)
    | none => (none, some GoError.noRows)

/-- Modelled from the spec: `RemoveByCode(code)` deletes all rows whose
code column matches; succeeds even when zero rows match. -/
def tokenRemoveByCode (st : List TokenRow) (code : String) : List TokenRow :=
  st.filter (fun r => !(r.code == code))

/-- Modelled from the spec: the token-store configuration (table name,
disable table init, disable GC; logger and interval are external). The
default table name stands for the spec's unnamed fixed default. -/
structure TokenStore where
  tableName : String := "oauth2_tokens"
  initTableDisabled : Bool := false
  gcDisabled : Bool := false
deriving DecidableEq, Repr

/-- Modelled from the spec: the token table-creation statement — a single
idempotent create-if-not-exists over the fixed schema of section 6. -/
def tokenInitQuery (t : String) : String :=
  "CREATE TABLE IF NOT EXISTS " ++ t ++
    " (id BIGSERIAL NOT NULL, code TEXT, code_created_at TIMESTAMPTZ, code_expires_in BIGINT, access TEXT, access_created_at TIMESTAMPTZ, access_expires_in BIGINT, refresh TEXT, refresh_created_at TIMESTAMPTZ, refresh_expires_in BIGINT, data JSONB NOT NULL, CONSTRAINT " ++
    t ++ "_pkey PRIMARY KEY (id));"

/-- Modelled from the spec: the token store built before init — defaults
with the options applied in order. -/
def buildTokenStore (options : List (TokenStore → TokenStore)) : TokenStore :=
  options.foldl (fun s o => o s) {}

/-- Modelled from the spec: `NewTokenStore` — applies options to the
defaults, then unless disabled issues the single table-creation `Exec`;
the store object is returned alongside the error on both paths (soft-fail
contract). -/
def NewTokenStore (a : Adapter) (options : List (TokenStore → TokenStore)) :
    (TokenStore × Option GoError) × List Call :=
  if (buildTokenStore options).initTableDisabled then
    ((buildTokenStore options, none), [])
  else
    ((buildTokenStore options, a.exec (tokenInitQuery (buildTokenStore options).tableName) []),
     [Call.exec (tokenInitQuery (buildTokenStore options).tableName) []])

/-- Modelled from the spec: the option disabling token table creation. -/
def WithTokenStoreInitTableDisabled : TokenStore → TokenStore :=
  fun s => { s with initTableDisabled := true }

/-- Modelled from the spec: the option overriding the token table name. -/
def WithTokenStoreTableName (n : String) : TokenStore → TokenStore :=
  fun s => { s with tableName := n }

/-- Modelled from the spec: the option disabling the GC loop. -/
def WithTokenStoreGCDisabled : TokenStore → TokenStore :=
  fun s => { s with gcDisabled := true }

/-- Modelled from the spec: the formatted message the GC loop hands to the
logger when a delete pass fails. -/
def gcErrorLog (e : GoError) : String :=
  "Error while cleaning out outdated entities: " ++ reprStr e

/-- Modelled from the spec: one GC tick — the outcome of the delete
statement is either silent success or a message appended to the logger's
log; the tick itself returns nothing to any caller. -/
def gcTick (deleteResult : Option GoError) (logs : List String) : List String :=
  match deleteResult with
  | none => logs
  | some e => logs ++ [gcErrorLog e]

/-- Modelled from the spec: the GC loop processes every tick outcome in
order, continuing past failures; its only output is the logger's log. -/
def gcLoop (ticks : List (Option GoError)) (logs : List String) : List String :=
  ticks.foldl (fun l r => gcTick r l) logs

/-!
Concrete instances used to instantiate the adapter- and codec-parameterized
theorems on closed inputs.
-/

/-- Splits a character list at every occurrence of the separator
(structurally recursive, so closed instances evaluate in the kernel). -/
def splitFields (sep : Char) : List Char → List (List Char)
  | [] => [[]]
  | ch :: cs =>
      if ch = sep then [] :: splitFields sep cs
      else
        match splitFields sep cs with
        | [] => [[ch]]
        | f :: fs => (ch :: f) :: fs

/-- A concrete stand-in for the external JSON codec on `models.Client`:
injective field concatenation with a separator, decodable whenever the
fields avoid the separator character. -/
def demoCodec : Codec where
  marshal c := .ok (c.ID ++ "|" ++ c.Secret ++ "|" ++ c.Domain ++ "|" ++ c.UserID)
  unmarshal s :=
    match (splitFields '|' s.data).map String.mk with
    | [i, se, dm, u] => ({ ID := i, Secret := se, Domain := dm, UserID := u }, none)
    | _ => ({ ID := "", Secret := "", Domain := "", UserID := "" },
            some (GoError.serializationErr "invalid payload"))

/-- A codec whose marshal always fails, for the serialization-failure path. -/
def failingCodec : Codec where
  marshal _ := .error (GoError.serializationErr "unsupported value")
  unmarshal _ := ({ ID := "", Secret := "", Domain := "", UserID := "" }, none)

/-- An adapter whose `Exec` always fails, as in the spec's construction
failure scenario; `SelectOne` fails the same way. -/
def failExecAdapter : Adapter where
  exec _ _ := some (GoError.adapterErr "exec failed")
  selectOne _ _ := .error (GoError.adapterErr "exec failed")

/-- An adapter over an empty table: `Exec` succeeds, `SelectOne` reports
the distinguished no-rows condition. -/
def noRowsAdapter : Adapter where
  exec _ _ := none
  selectOne _ _ := .error GoError.noRows

/-!
Theorems, one per claim.
-/

/-- Claim C2: for the empty string key, `GetByID` on the client store and
`GetByCode`/`GetByAccess`/`GetByRefresh` on the token store return an
absent result together with a nil error — not `NotFoundError` — and the
client store makes no adapter call (empty trace). -/
theorem emptyKey_shortCircuit (s : ClientStore) (codec : Codec) (a : Adapter)
    (st : List TokenRow) :
    s.getByID codec a "" = ((none, none), []) ∧
    tokenGetByCode st "" = (none, none) ∧
    tokenGetByAccess st "" = (none, none) ∧
    tokenGetByRefresh st "" = (none, none) := by
  refine ⟨?_, ?_, ?_, ?_⟩ <;>
    simp [ClientStore.getByID, tokenGetByCode, tokenGetByAccess, tokenGetByRefresh]

/-- Claim C4: for a non-empty id on which the adapter's `SelectOne` reports
its distinguished no-rows condition, `GetByID` returns that distinguished
error (`GoError.noRows`, i.e. `NotFoundError`) with an absent result — not
the nil/nil short-circuit and not a generic failure — after exactly one
adapter call. -/
theorem getByID_notFound (s : ClientStore) (codec : Codec) (a : Adapter)
    (id : String) (hid : id ≠ "")
    (hsel : a.selectOne (selectByIDQuery s.tableName) [id] = .error GoError.noRows) :
    s.getByID codec a id =
      ((none, some GoError.noRows),
       [Call.selectOne (selectByIDQuery s.tableName) [id]]) := by
  unfold ClientStore.getByID
  rw [if_neg hid, hsel]

/-- Witness for C4 at a concrete store, codec, adapter and id. -/
theorem getByID_notFound_witness :
    ClientStore.getByID {} demoCodec noRowsAdapter "c1" =
      ((none, some GoError.noRows),
       [Call.selectOne (selectByIDQuery "oauth2_clients") ["c1"]]) :=
  getByID_notFound {} demoCodec noRowsAdapter "c1" (by decide) rfl

/-- Claim C5: for a client whose payload serializes successfully, `Create`
performs exactly one adapter call — an `Exec` of the insert statement
carrying the client's id, secret, domain and serialized payload, with no
prior existence check — and returns the adapter's result verbatim. -/
theorem create_single_insert (s : ClientStore) (codec : Codec) (a : Adapter)
    (info : Client) (d : String) (hm : codec.marshal info = .ok d) :
    s.create codec a info =
      (a.exec (insertClientQuery s.tableName)
         [info.GetID, info.GetSecret, info.GetDomain, d],
       [Call.exec (insertClientQuery s.tableName)
         [info.GetID, info.GetSecret, info.GetDomain, d]]) := by
  unfold ClientStore.create
  rw [hm]

/-- Witness for C5 at a concrete client against an always-failing adapter:
the single insert carries the four values and the adapter's error (as for
a duplicate-id constraint violation) comes back verbatim. -/
theorem create_single_insert_witness :
    ClientStore.create {} demoCodec failExecAdapter
        { ID := "c1", Secret := "s1", Domain := "d1", UserID := "u1" } =
      (some (GoError.adapterErr "exec failed"),
       [Call.exec (insertClientQuery "oauth2_clients")
         ["c1", "s1", "d1", "c1|s1|d1|u1"]]) :=
  create_single_insert {} demoCodec failExecAdapter
    { ID := "c1", Secret := "s1", Domain := "d1", UserID := "u1" }
    "c1|s1|d1|u1" rfl

/-- Claim C10: for a client whose payload fails to serialize, `Create`
returns the serialization error and performs no adapter call at all (empty
trace), leaving the stored state unchanged. -/
theorem create_marshalFailure_noAdapterCall (s : ClientStore) (codec : Codec)
    (a : Adapter) (info : Client) (e : GoError)
    (hm : codec.marshal info = .error e) :
    s.create codec a info = (some e, []) := by
  unfold ClientStore.create
  rw [hm]

/-- Witness for C10 with a codec whose marshal fails. -/
theorem create_marshalFailure_noAdapterCall_witness :
    ClientStore.create {} failingCodec noRowsAdapter
        { ID := "c1", Secret := "s1", Domain := "d1", UserID := "u1" } =
      (some (GoError.serializationErr "unsupported value"), []) :=
  create_marshalFailure_noAdapterCall {} failingCodec noRowsAdapter
    { ID := "c1", Secret := "s1", Domain := "d1", UserID := "u1" }
    (GoError.serializationErr "unsupported value") rfl

/-- Claim C3: when the adapter's `Exec` fails on the table-creation
statement, construction still returns the fully configured store object
(the same store that the success path would return, hence usable)
alongside the non-nil error, for `NewClientStore` and analogously for the
spec-modelled `NewTokenStore`. -/
theorem construction_softFail (a : Adapter)
    (copts : List (ClientStore → ClientStore))
    (topts : List (TokenStore → TokenStore)) (e₁ e₂ : GoError)
    (hc : (buildClientStore copts).initTableDisabled = false)
    (hcx : a.exec (clientInitQuery (buildClientStore copts).tableName) [] = some e₁)
    (ht : (buildTokenStore topts).initTableDisabled = false)
    (htx : a.exec (tokenInitQuery (buildTokenStore topts).tableName) [] = some e₂) :
    NewClientStore a copts =
      ((buildClientStore copts, some e₁),
       [Call.exec (clientInitQuery (buildClientStore copts).tableName) []]) ∧
    NewTokenStore a topts =
      ((buildTokenStore topts, some e₂),
       [Call.exec (tokenInitQuery (buildTokenStore topts).tableName) []]) := by
  constructor
  · unfold NewClientStore ClientStore.initTable
    rw [if_neg (by rw [hc]; exact Bool.false_ne_true), hcx]
  · unfold NewTokenStore
    rw [if_neg (by rw [ht]; exact Bool.false_ne_true), htx]

/-- Witness for C3: no options, an adapter whose `Exec` always errors. -/
theorem construction_softFail_witness :
    NewClientStore failExecAdapter [] =
      (({}, some (GoError.adapterErr "exec failed")),
       [Call.exec (clientInitQuery "oauth2_clients") []]) ∧
    NewTokenStore failExecAdapter [] =
      (({}, some (GoError.adapterErr "exec failed")),
       [Call.exec (tokenInitQuery "oauth2_tokens") []]) :=
  construction_softFail failExecAdapter [] []
    (GoError.adapterErr "exec failed") (GoError.adapterErr "exec failed")
    rfl rfl rfl rfl

/-- Claim C6: a construction in which table creation is not disabled makes
exactly one adapter call, an `Exec` of the idempotent create-table-if-not-
exists statement with the fixed schema for the configured table name (the
text equations display the statements in full); the analogous property is
included for the spec-modelled token store. -/
theorem construction_initTable_statement (a : Adapter)
    (copts : List (ClientStore → ClientStore))
    (topts : List (TokenStore → TokenStore))
    (hc : (buildClientStore copts).initTableDisabled = false)
    (ht : (buildTokenStore topts).initTableDisabled = false) :
    (NewClientStore a copts).2 =
      [Call.exec (clientInitQuery (buildClientStore copts).tableName) []] ∧
    clientInitQuery (buildClientStore copts).tableName =
      "\nCREATE TABLE IF NOT EXISTS " ++
        (buildClientStore copts).tableName ++
        " (\n  id     TEXT  NOT NULL,\n  secret TEXT  NOT NULL,\n  domain TEXT  NOT NULL,\n  data   JSONB NOT NULL,\n  CONSTRAINT " ++
        (buildClientStore copts).tableName ++ "_pkey PRIMARY KEY (id)\n);\n" ∧
    (NewTokenStore a topts).2 =
      [Call.exec (tokenInitQuery (buildTokenStore topts).tableName) []] ∧
    tokenInitQuery (buildTokenStore topts).tableName =
      "CREATE TABLE IF NOT EXISTS " ++
        (buildTokenStore topts).tableName ++
        " (id BIGSERIAL NOT NULL, code TEXT, code_created_at TIMESTAMPTZ, code_expires_in BIGINT, access TEXT, access_created_at TIMESTAMPTZ, access_expires_in BIGINT, refresh TEXT, refresh_created_at TIMESTAMPTZ, refresh_expires_in BIGINT, data JSONB NOT NULL, CONSTRAINT " ++
        (buildTokenStore topts).tableName ++ "_pkey PRIMARY KEY (id));" := by
  refine ⟨?_, rfl, ?_, rfl⟩
  · unfold NewClientStore ClientStore.initTable
    rw [if_neg (by rw [hc]; exact Bool.false_ne_true)]
  · unfold NewTokenStore
    rw [if_neg (by rw [ht]; exact Bool.false_ne_true)]

/-- Witness for C6: default construction (init enabled) for both stores,
with a table-name override exercising the configured-name part. -/
theorem construction_initTable_statement_witness :
    (NewClientStore noRowsAdapter [WithClientStoreTableName "client_42"]).2 =
      [Call.exec (clientInitQuery "client_42") []] ∧
    clientInitQuery "client_42" =
      "\nCREATE TABLE IF NOT EXISTS " ++ "client_42" ++
        " (\n  id     TEXT  NOT NULL,\n  secret TEXT  NOT NULL,\n  domain TEXT  NOT NULL,\n  data   JSONB NOT NULL,\n  CONSTRAINT " ++
        "client_42" ++ "_pkey PRIMARY KEY (id)\n);\n" ∧
    (NewTokenStore noRowsAdapter [WithTokenStoreTableName "token_42"]).2 =
      [Call.exec (tokenInitQuery "token_42") []] ∧
    tokenInitQuery "token_42" =
      "CREATE TABLE IF NOT EXISTS " ++ "token_42" ++
        " (id BIGSERIAL NOT NULL, code TEXT, code_created_at TIMESTAMPTZ, code_expires_in BIGINT, access TEXT, access_created_at TIMESTAMPTZ, access_expires_in BIGINT, refresh TEXT, refresh_created_at TIMESTAMPTZ, refresh_expires_in BIGINT, data JSONB NOT NULL, CONSTRAINT " ++
        "token_42" ++ "_pkey PRIMARY KEY (id));" :=
  construction_initTable_statement noRowsAdapter
    [WithClientStoreTableName "client_42"] [WithTokenStoreTableName "token_42"]
    rfl rfl

/-- Claim C7: construction with the disable-table-creation option set
returns a nil error and makes zero adapter `Exec` calls (empty trace), for
the client store and the spec-modelled token store alike. -/
theorem construction_initDisabled_noExec (a : Adapter)
    (copts : List (ClientStore → ClientStore))
    (topts : List (TokenStore → TokenStore))
    (hc : (buildClientStore copts).initTableDisabled = true)
    (ht : (buildTokenStore topts).initTableDisabled = true) :
    NewClientStore a copts = ((buildClientStore copts, none), []) ∧
    NewTokenStore a topts = ((buildTokenStore topts, none), []) := by
  constructor
  · unfold NewClientStore
    rw [if_pos hc]
  · unfold NewTokenStore
    rw [if_pos ht]

/-- Witness for C7 with the disable options set on both stores. -/
theorem construction_initDisabled_noExec_witness :
    NewClientStore failExecAdapter [WithClientStoreInitTableDisabled] =
      (({ initTableDisabled := true }, none), []) ∧
    NewTokenStore failExecAdapter [WithTokenStoreInitTableDisabled] =
      (({ initTableDisabled := true }, none), []) :=
  construction_initDisabled_noExec failExecAdapter
    [WithClientStoreInitTableDisabled] [WithTokenStoreInitTableDisabled]
    rfl rfl

/-- Claim C9: the GC loop processes every tick outcome — a failed delete
statement contributes exactly its formatted message to the configured
logger's log and never terminates the loop, and the loop's only output is
that log (no error value escapes to any store caller). -/
theorem gcLoop_logsFailures_neverStops (ticks : List (Option GoError))
    (logs : List String) :
    gcLoop ticks logs = logs ++ ticks.filterMap (fun r => r.map gcErrorLog) := by
  induction ticks generalizing logs with
  | nil => simp [gcLoop]
  | cons r rest ih =>
      have hstep : gcLoop (r :: rest) logs = gcLoop rest (gcTick r logs) := rfl
      rw [hstep, ih]
      cases r <;> simp [gcTick]

/-- Claim C8: for a token created with only its code sub-token populated
(fresh code, store state without that code), `GetByCode` returns a record
whose code is exactly that code, and after `RemoveByCode`, `GetByCode`
returns the distinguished `NotFoundError`. -/
theorem tokenStore_code_lifecycle (st : List TokenRow) (t : Token)
    (hcode : t.code ≠ "")
    (_honly : t.access = "" ∧ t.refresh = "")
    (hfresh : ∀ r ∈ st, r.code ≠ t.code) :
    tokenGetByCode (tokenCreate st t) t.code = (some t, none) ∧
    (tokenGetByCode (tokenCreate st t) t.code).1.map Token.GetCode = some t.code ∧
    tokenGetByCode (tokenRemoveByCode (tokenCreate st t) t.code) t.code =
      (none, some GoError.noRows) := by
  have hnone : st.find? (fun r => r.code == t.code) = none := by
    rw [List.find?_eq_none]
    intro r hr
    simpa using hfresh r hr
  have hget : tokenGetByCode (tokenCreate st t) t.code = (some t, none) := by
    unfold tokenGetByCode tokenCreate
    rw [if_neg hcode, List.find?_append, hnone]
    simp
  refine ⟨hget, by rw [hget]; rfl, ?_⟩
  unfold tokenGetByCode tokenRemoveByCode tokenCreate
  rw [if_neg hcode]
  have hrem : (st ++
      [{ code := t.code, access := t.access, refresh := t.refresh, payload := t }] :
        List TokenRow).filter (fun r => !(r.code == t.code)) = st := by
    rw [List.filter_append]
    simp only [List.filter_cons, List.filter_nil]
    have hall : st.filter (fun r => !(r.code == t.code)) = st := by
      apply List.filter_eq_self.mpr
      intro r hr
      simpa using hfresh r hr
    simp [hall]
  rw [hrem, hnone]

/-- Witness for C8 at a concrete code-only token over the empty table. -/
theorem tokenStore_code_lifecycle_witness :
    tokenGetByCode (tokenCreate [] { code := "code-1", codeCreatedAt := 10, codeExpiresIn := 60 }) "code-1" =
      (some { code := "code-1", codeCreatedAt := 10, codeExpiresIn := 60 }, none) ∧
    (tokenGetByCode (tokenCreate [] { code := "code-1", codeCreatedAt := 10, codeExpiresIn := 60 }) "code-1").1.map Token.GetCode =
      some "code-1" ∧
    tokenGetByCode
        (tokenRemoveByCode
          (tokenCreate [] { code := "code-1", codeCreatedAt := 10, codeExpiresIn := 60 }) "code-1")
        "code-1" =
      (none, some GoError.noRows) :=
  tokenStore_code_lifecycle [] { code := "code-1", codeCreatedAt := 10, codeExpiresIn := 60 }
    (by decide) ⟨rfl, rfl⟩ (by intro r hr; cases hr)

/-- Claim C1: for a client with a non-empty id whose payload serializes
successfully (and round-trips through the external codec), against a
database holding no row with that id, `Create` succeeds and a subsequent
`GetByID` on the resulting database state returns that client — in
particular its id, secret, domain and userID — with a nil error. -/
theorem clientStore_create_get_roundtrip (s : ClientStore) (codec : Codec)
    (st : List ClientStoreItem) (c : Client) (d : String)
    (hid : c.ID ≠ "")
    (hm : codec.marshal c = .ok d)
    (hu : codec.unmarshal d = (c, none))
    (hfresh : ∀ r ∈ st, r.id ≠ c.ID) :
    (s.create codec (dbAdapter s.tableName st) c).1 = none ∧
    (s.getByID codec
        (dbAdapter s.tableName
          (runCalls s.tableName st (s.create codec (dbAdapter s.tableName st) c).2))
        c.ID).1 = (some c, none) := by
  have hnodup : st.any (fun r => r.id == c.ID) = false := by
    rw [List.any_eq_false]
    intro r hr
    simpa using hfresh r hr
  have hexec : dbExec s.tableName st (insertClientQuery s.tableName)
      [c.GetID, c.GetSecret, c.GetDomain, d] =
      (none, st ++ [⟨c.ID, c.Secret, c.Domain, d⟩]) := by
    unfold dbExec
    rw [if_pos rfl]
    simp only [Client.GetID, Client.GetSecret, Client.GetDomain]
    rw [hnodup]
    rfl
  have hcreate : s.create codec (dbAdapter s.tableName st) c =
      (none,
       [Call.exec (insertClientQuery s.tableName) [c.GetID, c.GetSecret, c.GetDomain, d]]) := by
    unfold ClientStore.create
    rw [hm]
    show ((dbExec s.tableName st (insertClientQuery s.tableName)
        [c.GetID, c.GetSecret, c.GetDomain, d]).1, _) = _
    rw [hexec]
  refine ⟨by rw [hcreate], ?_⟩
  rw [hcreate]
  have hstate : runCalls s.tableName st
      [Call.exec (insertClientQuery s.tableName) [c.GetID, c.GetSecret, c.GetDomain, d]] =
      st ++ [⟨c.ID, c.Secret, c.Domain, d⟩] := by
    unfold runCalls applyCall
    show (dbExec s.tableName st (insertClientQuery s.tableName)
        [c.GetID, c.GetSecret, c.GetDomain, d]).2 = _
    rw [hexec]
  rw [hstate]
  have hfind : (st ++ [(⟨c.ID, c.Secret, c.Domain, d⟩ : ClientStoreItem)]).find?
      (fun r => r.id == c.ID) = some ⟨c.ID, c.Secret, c.Domain, d⟩ := by
    rw [List.find?_append, List.find?_eq_none.mpr, Option.none_or]
    · simp
    · intro r hr
      simpa using hfresh r hr
  have hsel : dbSelectOne s.tableName (st ++ [⟨c.ID, c.Secret, c.Domain, d⟩])
      (selectByIDQuery s.tableName) [c.ID] = .ok ⟨c.ID, c.Secret, c.Domain, d⟩ := by
    unfold dbSelectOne
    rw [if_pos rfl]
    show (match (st ++ [(⟨c.ID, c.Secret, c.Domain, d⟩ : ClientStoreItem)]).find?
        (fun r => r.id == c.ID) with
      | some r => Except.ok r
      | none => Except.error GoError.noRows) =
        Except.ok (⟨c.ID, c.Secret, c.Domain, d⟩ : ClientStoreItem)
    rw [hfind]
  unfold ClientStore.getByID
  rw [if_neg hid]
  show (match dbSelectOne s.tableName
      (st ++ [(⟨c.ID, c.Secret, c.Domain, d⟩ : ClientStoreItem)])
      (selectByIDQuery s.tableName) [c.ID] with
    | .error e => ((none, some e), [Call.selectOne (selectByIDQuery s.tableName) [c.ID]])
    | .ok item =>
        ((some (toClientInfo codec item.data).1, (toClientInfo codec item.data).2),
         [Call.selectOne (selectByIDQuery s.tableName) [c.ID]])).1 = (some c, none)
  rw [hsel]
  show (some (codec.unmarshal d).1, (codec.unmarshal d).2) = (some c, none)
  rw [hu]

/-- Witness for C1: the spec's end-to-end scenario client against the
empty table, with the concrete codec. -/
theorem clientStore_create_get_roundtrip_witness :
    (ClientStore.create {} demoCodec (dbAdapter "oauth2_clients" [])
        { ID := "c1", Secret := "s1", Domain := "d1", UserID := "u1" }).1 = none ∧
    (ClientStore.getByID {} demoCodec
        (dbAdapter "oauth2_clients"
          (runCalls "oauth2_clients" []
            (ClientStore.create {} demoCodec (dbAdapter "oauth2_clients" [])
              { ID := "c1", Secret := "s1", Domain := "d1", UserID := "u1" }).2))
        "c1").1 =
      (some { ID := "c1", Secret := "s1", Domain := "d1", UserID := "u1" }, none) :=
  clientStore_create_get_roundtrip {} demoCodec []
    { ID := "c1", Secret := "s1", Domain := "d1", UserID := "u1" }
    "c1|s1|d1|u1" (by decide) rfl (by decide) (by intro r hr; cases hr)

end OAuth2PG
